import Mathlib

/-!
Verification development for the tabular extraction/conversion service
(halatio-tundra).  Each section shallowly embeds one part of the Python
source; theorems at the end settle the specification claims against the
embedded definitions.
-/

namespace Tundra

/-! ### Identifier validation — src/app/services/connectors/duckdb_base.py

`_SAFE_IDENTIFIER = re.compile(r"^[a-zA-Z0-9_\.]+$")` and
`_validate_identifier` (lines 21, 79–85).
-/

/-- A character accepted by the character class `[a-zA-Z0-9_.]`.
Lean's `Char.isUpper`/`isLower`/`isDigit` are exactly the ASCII ranges
used by the pattern. -/
def allowedIdentChar (c : Char) : Bool :=
  c.isUpper || c.isLower || c.isDigit || c = '_' || c = '.'

/-- Python `re.match(r"^[a-zA-Z0-9_.]+$", s)` viewed as a Boolean.
In Python, `$` matches at the end of the string and also just before a
newline that ends the string, so `"abc\n"` matches this pattern. -/
def safeIdentMatch (s : String) : Bool :=
  let cs := s.data
  (!cs.isEmpty && cs.all allowedIdentChar) ||
    (cs.getLast? = some '\n' && !cs.dropLast.isEmpty && cs.dropLast.all allowedIdentChar)

/-- Errors surfaced by the embedded code.  Both the bad-identifier error and
the missing-parameter error are `ValueError` in the source. -/
inductive PyError where
  | valueError (msg : String)
  deriving DecidableEq, Repr

/-- `DuckDBBaseConnector._validate_identifier` (duckdb_base.py 79–85):
raise `ValueError` unless the name matches the allow-list pattern. -/
def validate_identifier (name : String) : Except PyError Unit :=
  if safeIdentMatch name then Except.ok ()
  else Except.error (PyError.valueError "Invalid identifier")

/-- Python truthiness of an `Optional[str]`: `None` and `""` are falsy. -/
def strTruthy : Option String → Bool
  | none => false
  | some s => s ≠ ""

/-- Query building of `DuckDBBaseConnector.extract_to_parquet`
(duckdb_base.py 193–197):
`if query is None and table_name:` validate and build
`SELECT * FROM <alias>.<table_name>`; `elif query is None:` raise;
otherwise use the caller query verbatim. -/
def extract_build_query (dbAlias : String) (query table_name : Option String) :
    Except PyError String :=
  if query.isNone && strTruthy table_name then
    match table_name with
    | some t =>
      match validate_identifier t with
      | Except.error e => Except.error e
      | Except.ok _ => Except.ok ("SELECT * FROM " ++ dbAlias ++ "." ++ t)
    | none => Except.error (PyError.valueError "unreachable")
  else if query.isNone then
    Except.error (PyError.valueError "Either query or table_name must be provided")
  else
    match query with
    | some q => Except.ok q
    | none => Except.error (PyError.valueError "unreachable")

/-- Query building of `PostgresADBCConnector.extract_to_parquet`
(postgres_adbc.py 152–156): same control flow, but the built text is
`SELECT * FROM <table_name>` with no database dbAlias. -/
def adbc_build_query (query table_name : Option String) :
    Except PyError String :=
  if query.isNone && strTruthy table_name then
    match table_name with
    | some t =>
      match validate_identifier t with
      | Except.error e => Except.error e
      | Except.ok _ => Except.ok ("SELECT * FROM " ++ t)
    | none => Except.error (PyError.valueError "unreachable")
  else if query.isNone then
    Except.error (PyError.valueError "Either query or table_name must be provided")
  else
    match query with
    | some q => Except.ok q
    | none => Except.error (PyError.valueError "unreachable")

/-! ### `_extract_sync` statement plan — duckdb_base.py 112–164

The synchronous extraction attaches the external database, counts rows and
columns by wrapping the query as a subquery, then copies the query result
to the output path.  We record the database actions it issues, in order. -/

/-- `SELECT COUNT(*) FROM (<query>) AS _sub` (duckdb_base.py 136–138). -/
def count_stmt (query : String) : String :=
  "SELECT COUNT(*) FROM (" ++ query ++ ") AS _sub"

/-- `SELECT * FROM (<query>) AS _sub LIMIT 0` (duckdb_base.py 139–141). -/
def limit0_stmt (query : String) : String :=
  "SELECT * FROM (" ++ query ++ ") AS _sub LIMIT 0"

/-- `COPY (<query>) TO <output> (FORMAT parquet, ...)`
(duckdb_base.py 143–147); the path quoting is elided. -/
def copy_stmt (query output compression : String) (rowGroupSize : Nat) : String :=
  "COPY (" ++ query ++ ") TO " ++ output ++ " (FORMAT parquet, COMPRESSION "
    ++ compression ++ ", ROW_GROUP_SIZE " ++ toString rowGroupSize ++ ")"

/-- One database-level action taken by `_extract_sync`. -/
inductive DBAction where
  | attach
  | execStmt (sql : String)
  deriving DecidableEq, Repr

/-- The ordered actions `_extract_sync` issues for a given query. -/
def extract_sync_actions (query output compression : String)
    (rowGroupSize : Nat) : List DBAction :=
  [DBAction.attach,
   DBAction.execStmt (count_stmt query),
   DBAction.execStmt (limit0_stmt query),
   DBAction.execStmt (copy_stmt query output compression rowGroupSize)]

/-- `extract_to_parquet` up to the point where database work happens: build
the query (validation included); on success the plan is the built query
together with the actions `_extract_sync` will issue; on validation failure
no action is issued at all. -/
def extract_to_parquet_plan (dbAlias : String) (query table_name : Option String)
    (output compression : String) (rowGroupSize : Nat) :
    Except PyError (String × List DBAction) :=
  match extract_build_query dbAlias query table_name with
  | Except.error e => Except.error e
  | Except.ok q => Except.ok (q, extract_sync_actions q output compression rowGroupSize)

/-! ### Error classification — src/app/services/resilience.py 143–157 -/

/-- The data of a Python exception that `is_non_retryable_error` inspects:
whether it is a `ValueError`/`ValidationError` instance, its optional
`status_code` attribute, and its message. -/
structure PyExc where
  isValueOrValidationError : Bool
  statusCode : Option Int
  message : String
  deriving DecidableEq, Repr

/-- `needle` occurs at the start of `hay`. -/
def startsWithList : List Char → List Char → Bool
  | _, [] => true
  | [], _ :: _ => false
  | c :: cs, d :: ds => c = d && startsWithList cs ds

/-- `needle` occurs somewhere inside `hay` (Python `token in message`). -/
def containsSub (hay needle : List Char) : Bool :=
  match hay with
  | [] => needle.isEmpty
  | _ :: rest => startsWithList hay needle || containsSub rest needle

/-- The message tokens of resilience.py line 153. -/
def nonRetryableTokens : List String :=
  ["validation", "invalid", "not found", "bad request"]

/-- `is_non_retryable_error` (resilience.py 143–153): `ValueError` and
`ValidationError` instances, explicit 4xx status codes, and messages
containing one of the tokens (lower-cased; ASCII lower-casing modelled)
are non-retryable. -/
def is_non_retryable_error (e : PyExc) : Bool :=
  e.isValueOrValidationError ||
    (match e.statusCode with
     | some c => decide (400 ≤ c) && decide (c < 500)
     | none => false) ||
    nonRetryableTokens.any
      (fun tok => containsSub (e.message.data.map Char.toLower) tok.data)

/-- `should_trip_breaker` (resilience.py 156–157). -/
def should_trip_breaker (e : PyExc) : Bool := !is_non_retryable_error e

/-! ### CircuitBreaker — src/app/services/resilience.py 19–126

Time is modelled as a rational (`time.monotonic()` values); the embedding
is sequential, one completed call at a time, which is what the mutex in the
source enforces. -/

/-- The three breaker states (`closed` / `open` / `half_open`; `opened`
stands for the source's `OPEN` since `open` is reserved in Lean). -/
inductive CBState where
  | closed
  | opened
  | halfOpen
  deriving DecidableEq, Repr

structure CircuitBreakerConfig where
  failureThreshold : Nat
  recoveryTimeoutSeconds : ℚ
  deriving DecidableEq, Repr

structure CircuitBreaker where
  state : CBState
  failureCount : Nat
  openedAt : Option ℚ
  deriving DecidableEq, Repr

/-- `CircuitBreaker.__init__`: CLOSED, zero failures, no open timestamp. -/
def CircuitBreaker.init : CircuitBreaker := ⟨CBState.closed, 0, none⟩

/-- `_can_attempt_call` (resilience.py 59–69): any non-OPEN state may
proceed; an OPEN breaker whose recovery timeout has elapsed transitions to
HALF_OPEN and may proceed; otherwise the call is rejected.  The source
asserts `openedAt` is set whenever the state is OPEN, so the `none` branch
is unreachable. -/
def can_attempt_call (cfg : CircuitBreakerConfig) (cb : CircuitBreaker)
    (now : ℚ) : Bool × CircuitBreaker :=
  if cb.state ≠ CBState.opened then (true, cb)
  else
    match cb.openedAt with
    | some t0 =>
      if cfg.recoveryTimeoutSeconds ≤ now - t0 then
        (true, { cb with state := CBState.halfOpen })
      else (false, cb)
    | none => (false, cb)

/-- `_record_success` (resilience.py 71–75): reset the counter, clear the
timestamp, return to CLOSED. -/
def record_success (_cb : CircuitBreaker) : CircuitBreaker :=
  ⟨CBState.closed, 0, none⟩

/-- `_record_failure` (resilience.py 77–82): increment the counter; if the
state is HALF_OPEN or the counter has reached the threshold, stamp the
time and go OPEN. -/
def record_failure (cfg : CircuitBreakerConfig) (cb : CircuitBreaker)
    (now : ℚ) : CircuitBreaker :=
  let fc := cb.failureCount + 1
  if cb.state = CBState.halfOpen || cfg.failureThreshold ≤ fc then
    ⟨CBState.opened, fc, some now⟩
  else
    ⟨cb.state, fc, cb.openedAt⟩

/-- The outcome the wrapped function would produce if invoked. -/
inductive CallOutcome (α : Type) where
  | success (a : α)
  | failure (e : PyExc)
  deriving DecidableEq, Repr

/-- What `CircuitBreaker.call` does for the caller. -/
inductive CallResult (α : Type) where
  | circuitOpenError
  | ok (a : α)
  | raised (e : PyExc)
  deriving DecidableEq, Repr

/-- One completed `CircuitBreaker.call`: the caller-visible result, the
breaker state afterwards, and whether the wrapped function was invoked. -/
structure CallStep (α : Type) where
  result : CallResult α
  breaker : CircuitBreaker
  invoked : Bool
  deriving DecidableEq, Repr

/-- `CircuitBreaker.call` (resilience.py 84–104): reject with the
circuit-open error when the breaker disallows the attempt; otherwise invoke
the function; success records success; a failure records failure when
`should_trip` holds and records success otherwise, re-raising either way. -/
def CircuitBreaker.call {α : Type} (cfg : CircuitBreakerConfig)
    (cb : CircuitBreaker) (now : ℚ) (outcome : CallOutcome α)
    (shouldTrip : PyExc → Bool) : CallStep α :=
  let step := can_attempt_call cfg cb now
  if step.1 then
    match outcome with
    | CallOutcome.success a => ⟨CallResult.ok a, record_success step.2, true⟩
    | CallOutcome.failure e =>
      if shouldTrip e then
        ⟨CallResult.raised e, record_failure cfg step.2 now, true⟩
      else
        ⟨CallResult.raised e, record_success step.2, true⟩
  else ⟨CallResult.circuitOpenError, step.2, false⟩

/-- `n` consecutive calls whose wrapped function fails with `e`, the `i`-th
at time `times i`, starting from a fresh breaker. -/
def failStreak (cfg : CircuitBreakerConfig) (times : Nat → ℚ) (e : PyExc) :
    Nat → CircuitBreaker
  | 0 => CircuitBreaker.init
  | n + 1 =>
    (CircuitBreaker.call (α := Unit) cfg (failStreak cfg times e n) (times n)
      (CallOutcome.failure e) should_trip_breaker).breaker

/-- Default config of `external_dependency_breaker` (resilience.py 168–174):
threshold 3, recovery timeout 20 s. -/
def external_dependency_breaker_config : CircuitBreakerConfig := ⟨3, 20⟩

/-- Default config of `supabase_breaker` (resilience.py 160–166). -/
def supabase_breaker_config : CircuitBreakerConfig := ⟨5, 30⟩

/-! ### Retry policy — tenacity decorator on `extract_to_parquet`

`@retry(stop=stop_after_attempt(5), wait=wait_exponential_jitter(initial=0.5,
max=30), reraise=True)` (duckdb_base.py 166–170, postgres_adbc.py 138–142).
With no `retry=` argument tenacity retries on every exception; `reraise=True`
re-raises the final attempt's error unchanged. -/

def retry_max_attempts : Nat := 5
def retry_wait_initial : ℚ := 1 / 2
def retry_wait_max : ℚ := 30

/-- tenacity `wait_exponential_jitter(initial, max)`: on attempt `n` the
wait is `max 0 (min (initial * 2^(n-1) + jitter) max)` where `jitter` is
drawn uniformly from `[0, 1]`; the draw is passed in explicitly. -/
def wait_exponential_jitter (initial maxWait : ℚ) (attemptNumber : Nat)
    (jitter : ℚ) : ℚ :=
  max 0 (min (initial * 2 ^ (attemptNumber - 1) + jitter) maxWait)

/-- Retry driver: `f n` is the outcome of attempt `n` (numbered from 1).
`retryGo f n r` runs attempt `n` with `r` further attempts allowed after
it, returning the final outcome and the number of attempts made.  The last
allowed attempt's error is returned (re-raised) unchanged. -/
def retryGo {α : Type} (f : Nat → Except PyError α) (attempt : Nat) :
    Nat → Except PyError α × Nat
  | 0 => (f attempt, 1)
  | r + 1 =>
    match f attempt with
    | Except.ok a => (Except.ok a, 1)
    | Except.error _ =>
      let rest := retryGo f (attempt + 1) r
      (rest.1, rest.2 + 1)

/-- The retry wrapper as configured on `extract_to_parquet`: up to 5
attempts, final error re-raised unchanged. -/
def tenacity_retry {α : Type} (f : Nat → Except PyError α) :
    Except PyError α × Nat :=
  retryGo f 1 (retry_max_attempts - 1)

/-! ### ADBC extraction path and the breaker — postgres_adbc.py 143–172

One attempt of `PostgresADBCConnector.extract_to_parquet`: the query is
built (validating the table name) *before* the breaker-wrapped thread call;
a validation failure therefore never reaches the breaker. -/

/-- One ADBC extraction attempt: on validation failure the breaker is
untouched; otherwise the breaker mediates the inner extraction whose
outcome is `inner`. -/
def adbc_extract_attempt {α : Type} (cfg : CircuitBreakerConfig)
    (cb : CircuitBreaker) (now : ℚ) (query table_name : Option String)
    (inner : CallOutcome α) : Except PyError (CallStep α) × CircuitBreaker :=
  match adbc_build_query query table_name with
  | Except.error e => (Except.error e, cb)
  | Except.ok _ =>
    let s := CircuitBreaker.call cfg cb now inner should_trip_breaker
    (Except.ok s, s.breaker)

/-! ### Schema inference — src/app/services/schema_inference.py

`MAX_SAMPLE_SIZE` (line 29) and the sample view built by `_analyze_file`
(lines 113–118), plus `_detect_string_format` (lines 211–233). -/

def MAX_SAMPLE_SIZE : Nat := 10000

/-- The `LIMIT` value of the view
`CREATE VIEW sample_data AS SELECT * FROM <read-expr> LIMIT <sample_size>`
(schema_inference.py 114–118): the caller's `sample_size` is interpolated
directly; `MAX_SAMPLE_SIZE` is not applied anywhere. -/
def sample_view_limit (sample_size : Nat) : Nat := sample_size

/-- Number of rows in the sample view: SQL `LIMIT n` over a source with
`sourceRows` rows yields `min sourceRows n` rows. -/
def sample_view_rows (sourceRows sample_size : Nat) : Nat :=
  min sourceRows (sample_view_limit sample_size)

/-- Run an anchored character-list matcher under Python `$` semantics:
`$` also matches just before one newline that ends the string. -/
def pyFullMatch (p : List Char → Bool) (cs : List Char) : Bool :=
  p cs || (cs.getLast? = some '\n' && p cs.dropLast)

def isAsciiAlpha (c : Char) : Bool := c.isUpper || c.isLower

/-- Character class `[a-zA-Z0-9._%+-]` of the email pattern. -/
def emailLocalChar (c : Char) : Bool :=
  isAsciiAlpha c || c.isDigit || c = '.' || c = '_' || c = '%' || c = '+' || c = '-'

/-- Character class `[a-zA-Z0-9.-]` of the email pattern. -/
def emailDomainChar (c : Char) : Bool :=
  isAsciiAlpha c || c.isDigit || c = '.' || c = '-'

/-- The part after `@`: `[a-zA-Z0-9.-]+\.[a-zA-Z]{2,}` anchored to the end.
Since the trailing class excludes dots, the explicit `\.` can only be the
last dot of the remainder. -/
def emailDomainTail (rest : List Char) : Bool :=
  let tldLen := (rest.reverse.takeWhile (fun c => c ≠ '.')).length
  decide (tldLen < rest.length)
    && (let dom := rest.take (rest.length - tldLen - 1)
        let tld := rest.drop (rest.length - tldLen)
        !dom.isEmpty && dom.all emailDomainChar
          && decide (2 ≤ tld.length) && tld.all isAsciiAlpha)

/-- `^[a-zA-Z0-9._%+-]+@[a-zA-Z0-9.-]+\.[a-zA-Z]{2,}$` without the `$`
newline allowance: the mandatory `@` is the first (and only possible)
`@` of the string. -/
def emailCore (cs : List Char) : Bool :=
  let localPart := cs.takeWhile (fun c => c ≠ '@')
  decide (localPart.length < cs.length)
    && !localPart.isEmpty && localPart.all emailLocalChar
    && emailDomainTail (cs.drop (localPart.length + 1))

/-- `re.match(email_pattern, v)` (schema_inference.py 217). -/
def email_match (s : String) : Bool := pyFullMatch emailCore s.data

/-- `re.match(r"^https?://", v)` (line 221): `re.match` anchors only at the
start, so this is a prefix test. -/
def url_match (s : String) : Bool :=
  startsWithList s.data "http://".data || startsWithList s.data "https://".data

/-- Character class `[\d\s\-\(\)]` of the phone pattern (ASCII `\d`/`\s`
modelled; the inputs of interest are ASCII). -/
def phoneClassChar (c : Char) : Bool :=
  c.isDigit || c = ' ' || c = '\t' || c = '\n' || c = '\r' || c = '\x0b'
    || c = '\x0c' || c = '-' || c = '(' || c = ')'

/-- `^\+?[\d\s\-\(\)]{10,}$` without the `$` newline allowance: `+` is not
in the class, so a leading `+` must be consumed by `\+?`. -/
def phoneCore (cs : List Char) : Bool :=
  let body := if cs.head? = some '+' then cs.tail else cs
  decide (10 ≤ body.length) && body.all phoneClassChar

/-- `re.match(phone_pattern, v)` (line 226). -/
def phone_match (s : String) : Bool := pyFullMatch phoneCore s.data

def isLowerHexDigit (c : Char) : Bool :=
  c.isDigit || ('a' ≤ c && c ≤ 'f')

/-- `^[0-9a-f]{8}-[0-9a-f]{4}-[0-9a-f]{4}-[0-9a-f]{4}-[0-9a-f]{12}$`:
36 characters with dashes at positions 8, 13, 18, 23. -/
def uuidCore (cs : List Char) : Bool :=
  decide (cs.length = 36)
    && (List.range 36).all (fun i =>
        if i = 8 || i = 13 || i = 18 || i = 23 then cs.getD i ' ' = '-'
        else isLowerHexDigit (cs.getD i ' '))

/-- `re.match(uuid_pattern, v.lower())` (line 230). -/
def uuid_match (s : String) : Bool :=
  pyFullMatch uuidCore (s.data.map Char.toLower)

/-- `sum(bool(re.match(p, v)) for v in sample) / len(sample) > 0.8`
(schema_inference.py 218, 222, 226, 230).  The source divides in floating
point; at the sample sizes involved (≤ 20 values) the float comparison with
the literal `0.8` coincides with the exact rational comparison used here. -/
def matchRatioGt (p : String → Bool) (sample : List String) : Bool :=
  decide ((sample.countP p : ℚ) / (sample.length : ℚ) > 4 / 5)

/-- `SchemaInferenceService._detect_string_format` (lines 211–233): empty
sample detects nothing; otherwise email, URL, phone, UUID are tried in that
order and the first ratio strictly above 0.8 wins. -/
def detect_string_format (sample : List String) : Option String :=
  if sample.isEmpty then none
  else if matchRatioGt email_match sample then some "email"
  else if matchRatioGt url_match sample then some "url"
  else if matchRatioGt phone_match sample then some "phone"
  else if matchRatioGt uuid_match sample then some "uuid"
  else none

/-! ### File converter — src/app/services/file_converter.py

A minimal polars DataFrame model sufficient for `_apply_transformations`
(lines 272–304), `_generate_schema` (lines 322–350) and the paths of
`convert` (lines 50–122) the claims are about. -/

inductive PValue where
  | vNull
  | vStr (s : String)
  | vInt (n : Int)
  deriving DecidableEq, Repr

inductive PType where
  | tStr
  | tInt
  deriving DecidableEq, Repr

structure PColumn where
  name : String
  dtype : PType
  values : List PValue
  deriving DecidableEq, Repr

abbrev PDataFrame := List PColumn

/-- Decimal digits to a number, most significant first. -/
def digitsToNat (cs : List Char) : Nat :=
  cs.foldl (fun a c => a * 10 + (c.toNat - '0'.toNat)) 0

/-- Integer-literal parsing (optional minus sign, then decimal digits),
the shape polars' strict string-to-integer cast accepts. -/
def parse_int (s : String) : Option Int :=
  match s.data with
  | [] => none
  | '-' :: rest =>
    if !rest.isEmpty && rest.all Char.isDigit then
      some (-(digitsToNat rest : Int))
    else none
  | cs =>
    if cs.all Char.isDigit then some ((digitsToNat cs : Int)) else none

/-- polars strict cast of one value (`pl.col(col).cast(dtype)` default
`strict=True`): nulls pass through, an unparsable string-to-int cast
raises. -/
def cast_value : PType → PValue → Except String PValue
  | _, PValue.vNull => Except.ok PValue.vNull
  | PType.tInt, PValue.vInt n => Except.ok (PValue.vInt n)
  | PType.tInt, PValue.vStr s =>
    match parse_int s with
    | some n => Except.ok (PValue.vInt n)
    | none => Except.error "conversion failed"
  | PType.tStr, PValue.vStr s => Except.ok (PValue.vStr s)
  | PType.tStr, PValue.vInt n => Except.ok (PValue.vStr (toString n))

/-- Strict cast of a whole column: fails if any single value fails. -/
def strict_cast_column (col : PColumn) (dtype : PType) :
    Except String PColumn := do
  let vs ← col.values.mapM (cast_value dtype)
  pure ⟨col.name, dtype, vs⟩

structure ConversionOptions where
  column_mapping : List (String × String)
  type_overrides : List (String × PType)
  skip_rows : List Nat
  deriving DecidableEq, Repr

def ConversionOptions.empty : ConversionOptions := ⟨[], [], []⟩

def lookupRename (m : List (String × String)) (name : String) : String :=
  match m.find? (fun kv => kv.1 = name) with
  | some kv => kv.2
  | none => name

/-- `df.rename(mapping)` (file_converter.py 284): polars raises when a key
names no existing column; this call is outside any try block. -/
def df_rename (df : PDataFrame) (m : List (String × String)) :
    Except String PDataFrame :=
  if m.all (fun kv => df.any (fun c => c.name = kv.1)) then
    Except.ok (df.map (fun c => { c with name := lookupRename m c.name }))
  else Except.error "column not found"

/-- The type-override loop (file_converter.py 288–294): for each override,
`try: df = df.with_columns(pl.col(col).cast(dtype)) except: warn`.  A
missing column or a failed strict cast leaves the frame unchanged and
appends a warning; a successful cast replaces the column. -/
def apply_type_overrides (df : PDataFrame) (ov : List (String × PType)) :
    PDataFrame × List String :=
  ov.foldl
    (fun acc kv =>
      match acc.1.find? (fun c => c.name = kv.1) with
      | none => (acc.1, acc.2 ++ ["Could not cast column " ++ kv.1])
      | some c =>
        match strict_cast_column c kv.2 with
        | Except.error _ => (acc.1, acc.2 ++ ["Could not cast column " ++ kv.1])
        | Except.ok c2 =>
          (acc.1.map (fun d => if d.name = kv.1 then c2 else d), acc.2))
    (df, [])

/-- The skip-rows step (file_converter.py 297–302): rows whose 0-based
index is in `skip` are filtered out; `rows_skipped` is the length of the
caller's list. -/
def filter_rows (df : PDataFrame) (skip : List Nat) : PDataFrame :=
  df.map (fun c =>
    { c with values :=
        ((c.values.zipWith (fun v i => (v, i)) (List.range c.values.length)).filter
          (fun p => !skip.contains p.2)).map (fun p => p.1) })

/-- `FileConverter._apply_transformations` (lines 272–304): rename (strict,
uncaught), then type overrides (each caught into a warning), then row
skipping.  Python truthiness: an empty mapping/list skips its step. -/
def apply_transformations (df : PDataFrame) (opts : ConversionOptions) :
    Except String (PDataFrame × List String × Nat) := do
  let df1 ←
    if opts.column_mapping.isEmpty then pure df
    else df_rename df opts.column_mapping
  let step2 :=
    if opts.type_overrides.isEmpty then (df1, [])
    else apply_type_overrides df1 opts.type_overrides
  let step3 :=
    if opts.skip_rows.isEmpty then (step2.1, 0)
    else (filter_rows step2.1 opts.skip_rows, opts.skip_rows.length)
  pure (step3.1, step2.2, step3.2)

def ptype_name : PType → String
  | PType.tStr => "String"
  | PType.tInt => "Int64"

/-- `col.startswith('_')` (file_converter.py 328). -/
def startsWithUnderscore (s : String) : Bool :=
  startsWithList s.data ['_']

/-- `FileConverter._generate_schema` (lines 322–350): one field per column
in frame order, except that columns whose name starts with an underscore
are skipped. -/
def generate_schema_fields (df : PDataFrame) : List (String × String) :=
  (df.filter (fun c => !startsWithUnderscore c.name)).map
    (fun c => (c.name, ptype_name c.dtype))

/-- `convert` chooses streaming when no transformation option is set
(file_converter.py 51–58). -/
def has_transformations (opts : ConversionOptions) : Bool :=
  !opts.column_mapping.isEmpty || !opts.type_overrides.isEmpty
    || !opts.skip_rows.isEmpty

/-- The reported `column_schema` of `convert` for a csv/tsv/parquet source
read as `df`: the streaming path writes the source unchanged and derives
the schema from the written output; the eager path applies transformations
first (file_converter.py 58–97). -/
def convert_schema (df : PDataFrame) (opts : ConversionOptions) :
    Except String (List (String × String)) :=
  if !has_transformations opts then Except.ok (generate_schema_fields df)
  else do
    let r ← apply_transformations df opts
    pure (generate_schema_fields r.1)

/-! ### DuckDB connector variants and `test_connection` — C10

Method sets transcribed from the class bodies; `DuckDBBaseConnector`
(duckdb_base.py 69–227) and the four subclasses.  No class in the
hierarchy defines `_configure_duckdb`, yet each subclass's `_test_sync`
calls `self._configure_duckdb(conn)` as its first action after opening the
in-process DuckDB connection. -/

inductive DuckDBConnectorClass where
  | postgresDuckDB
  | mysqlDuckDB
  | sqliteDuckDB
  | mssqlDuckDB
  deriving DecidableEq, Repr

/-- Methods defined on `DuckDBBaseConnector` (duckdb_base.py 69–227). -/
def duckdb_base_methods : List String :=
  ["__init__", "_validate_identifier", "_attach_database", "_get_db_alias",
   "test_connection", "_extract_sync", "extract_to_parquet"]

/-- Methods defined on each subclass (postgres_duckdb.py, mysql_duckdb.py,
sqlite_duckdb.py, mssql_duckdb.py). -/
def class_methods : DuckDBConnectorClass → List String
  | DuckDBConnectorClass.postgresDuckDB =>
    ["__init__", "_build_connection_string", "_get_db_alias",
     "_attach_database", "test_connection"]
  | DuckDBConnectorClass.mysqlDuckDB =>
    ["__init__", "_build_connection_string", "_get_db_alias",
     "_attach_database", "test_connection"]
  | DuckDBConnectorClass.sqliteDuckDB =>
    ["__init__", "_get_db_alias", "_attach_database", "test_connection"]
  | DuckDBConnectorClass.mssqlDuckDB =>
    ["__init__", "_get_db_alias", "_attach_database", "test_connection"]

/-- Python attribute resolution over the two-level hierarchy. -/
def method_defined (k : DuckDBConnectorClass) (m : String) : Bool :=
  (class_methods k).contains m || duckdb_base_methods.contains m

/-- `_test_sync` of each DuckDB variant: after `duckdb.connect()` (an
in-process operation) the first statement is `self._configure_duckdb(conn)`;
if that attribute does not resolve, an `AttributeError` is raised there and
nothing later runs.  All subsequent, credential-dependent steps (extension
loading, ATTACH, probe query) are abstracted as `rest`. -/
def test_sync (k : DuckDBConnectorClass) (rest : Except String Nat) :
    Except String Nat :=
  if method_defined k "_configure_duckdb" then rest
  else Except.error "AttributeError: _configure_duckdb"

structure TestConnectionResult where
  success : Bool
  error : String
  deriving DecidableEq, Repr

/-- `test_connection` of each DuckDB variant: `try` around `_test_sync`;
`except Exception` returns `{"success": False, "error": "connection_failed",
...}`; the success branch returns `{"success": True, ...}`. -/
def test_connection (k : DuckDBConnectorClass) (rest : Except String Nat) :
    TestConnectionResult :=
  match test_sync k rest with
  | Except.ok _ => ⟨true, ""⟩
  | Except.error _ => ⟨false, "connection_failed"⟩

/-- Equality of `Except` results is decidable when both components are. -/
instance {ε α : Type} [DecidableEq ε] [DecidableEq α] :
    DecidableEq (Except ε α) := fun a b =>
  match a, b with
  | Except.ok x, Except.ok y =>
    if h : x = y then Decidable.isTrue (by rw [h])
    else Decidable.isFalse (by intro hc; cases hc; exact h rfl)
  | Except.error x, Except.error y =>
    if h : x = y then Decidable.isTrue (by rw [h])
    else Decidable.isFalse (by intro hc; cases hc; exact h rfl)
  | Except.ok _, Except.error _ => Decidable.isFalse (by intro hc; cases hc)
  | Except.error _, Except.ok _ => Decidable.isFalse (by intro hc; cases hc)

/-! ## Helper lemmas -/

theorem safeIdentMatch_ne_empty {t : String} (h : safeIdentMatch t = true) :
    t ≠ "" := by
  intro he
  subst he
  simp [safeIdentMatch] at h

theorem extract_build_query_ok (dbAlias t : String)
    (h : safeIdentMatch t = true) :
    extract_build_query dbAlias none (some t)
      = Except.ok ("SELECT * FROM " ++ dbAlias ++ "." ++ t) := by
  have hne : t ≠ "" := safeIdentMatch_ne_empty h
  simp [extract_build_query, strTruthy, hne, validate_identifier, h]

theorem extract_build_query_err (dbAlias t : String)
    (h : safeIdentMatch t = false) :
    ∃ msg, extract_build_query dbAlias none (some t)
      = Except.error (PyError.valueError msg) := by
  by_cases hne : t = ""
  · subst hne
    exact ⟨"Either query or table_name must be provided", by rfl⟩
  · refine ⟨"Invalid identifier", ?_⟩
    simp [extract_build_query, strTruthy, hne, validate_identifier, h]

theorem adbc_build_query_ok (t : String) (h : safeIdentMatch t = true) :
    adbc_build_query none (some t) = Except.ok ("SELECT * FROM " ++ t) := by
  have hne : t ≠ "" := safeIdentMatch_ne_empty h
  simp [adbc_build_query, strTruthy, hne, validate_identifier, h]

/-! ## Claim theorems -/

/-- C1, counterexample.  The claim states a validation error is raised if
and only if the table name contains a character outside letters, digits,
underscore, and dot.  The name `"a\n"` contains a newline — a character
outside that set — yet `extract_to_parquet` raises nothing for it: Python's
`$` matches before a trailing newline, so `re.match(r"^[a-zA-Z0-9_.]+$",
"a\n")` succeeds, validation passes, and the query and full extraction plan
are produced. -/
theorem claim1_counterexample :
    extract_build_query "pg" none (some "a\n")
        = Except.ok "SELECT * FROM pg.a\n"
      ∧ (extract_to_parquet_plan "pg" none (some "a\n") "out" "zstd" 122880).isOk
        = true
      ∧ "a\n".data.contains '\n' = true
      ∧ allowedIdentChar '\n' = false := by
  decide

/-- C1, amended.  `extract_to_parquet` called with a table name and no
query raises a validation error before any database action if and only if
the name fails Python's `re.match` of `^[a-zA-Z0-9_.]+$` — i.e. unless the
name is a nonempty string over letters/digits/underscore/dot, optionally
followed by a single trailing newline.  Every name matching the pattern
passes validation and yields the built query; every failing name (the empty
name included, via the missing-parameter error) yields a `ValueError`
before any database action is planned. -/
theorem claim1_amended (dbAlias t output compression : String)
    (rowGroupSize : Nat) :
    ((extract_build_query dbAlias none (some t)).isOk = true
        ↔ safeIdentMatch t = true)
      ∧ (safeIdentMatch t = true →
          extract_build_query dbAlias none (some t)
            = Except.ok ("SELECT * FROM " ++ dbAlias ++ "." ++ t))
      ∧ (safeIdentMatch t = false →
          ∃ msg, extract_to_parquet_plan dbAlias none (some t) output
              compression rowGroupSize
            = Except.error (PyError.valueError msg)) := by
  refine ⟨⟨fun hok => ?_, fun h => ?_⟩, fun h => extract_build_query_ok dbAlias t h, fun h => ?_⟩
  · by_contra hno
    have h' : safeIdentMatch t = false := by
      cases hsm : safeIdentMatch t
      · rfl
      · exact absurd hsm hno
    obtain ⟨msg, hmsg⟩ := extract_build_query_err dbAlias t h'
    rw [hmsg] at hok
    simp [Except.isOk, Except.toBool] at hok
  · rw [extract_build_query_ok dbAlias t h]
    rfl
  · obtain ⟨msg, hmsg⟩ := extract_build_query_err dbAlias t h
    exact ⟨msg, by simp [extract_to_parquet_plan, hmsg]⟩

/-- C1 witness: the valid name `users` passes and builds the aliased
query; the invalid name `bad name` fails before any plan exists. -/
theorem claim1_amended_witness :
    extract_build_query "pg" none (some "users")
        = Except.ok "SELECT * FROM pg.users"
      ∧ ∃ msg, extract_to_parquet_plan "pg" none (some "bad name") "out"
          "zstd" 122880 = Except.error (PyError.valueError msg) :=
  ⟨(claim1_amended "pg" "users" "out" "zstd" 122880).2.1 (by decide),
   (claim1_amended "pg" "bad name" "out" "zstd" 122880).2.2 (by decide)⟩

/-- C3, counterexample.  The `PostgresADBCConnector` (whose
`_get_db_alias` is `"pg"`) builds `SELECT * FROM <name>` with no alias
prefix, so the claim that every `extract_to_parquet` executes
`SELECT * FROM <alias>.<name>` fails on it. -/
theorem claim3_counterexample :
    adbc_build_query none (some "users") = Except.ok "SELECT * FROM users"
      ∧ ("SELECT * FROM users" : String) ≠ "SELECT * FROM pg.users" := by
  decide

/-- C3, amended.  For every table name passing the allow-list, the DuckDB
base connector builds exactly `SELECT * FROM <alias>.<name>`, and that
query is what is counted (`SELECT COUNT(*) FROM (<q>) AS _sub`) and copied
(`COPY (<q>) TO ...`); the ADBC Postgres connector instead builds
`SELECT * FROM <name>` without the alias; a caller-supplied query is used
verbatim by both. -/
theorem claim3_amended (dbAlias t output compression : String)
    (rowGroupSize : Nat) (h : safeIdentMatch t = true) :
    (extract_to_parquet_plan dbAlias none (some t) output compression
        rowGroupSize
      = Except.ok ("SELECT * FROM " ++ dbAlias ++ "." ++ t,
          [DBAction.attach,
           DBAction.execStmt
             (count_stmt ("SELECT * FROM " ++ dbAlias ++ "." ++ t)),
           DBAction.execStmt
             (limit0_stmt ("SELECT * FROM " ++ dbAlias ++ "." ++ t)),
           DBAction.execStmt
             (copy_stmt ("SELECT * FROM " ++ dbAlias ++ "." ++ t) output
               compression rowGroupSize)]))
      ∧ adbc_build_query none (some t) = Except.ok ("SELECT * FROM " ++ t)
      ∧ (∀ q : String,
          extract_build_query dbAlias (some q) none = Except.ok q
            ∧ adbc_build_query (some q) none = Except.ok q) := by
  refine ⟨?_, adbc_build_query_ok t h, fun q => ⟨rfl, rfl⟩⟩
  simp [extract_to_parquet_plan, extract_build_query_ok dbAlias t h,
    extract_sync_actions]

/-- C3 witness at the table name `users`. -/
theorem claim3_amended_witness :
    extract_to_parquet_plan "pg" none (some "users") "out" "zstd" 122880
      = Except.ok ("SELECT * FROM pg.users",
          [DBAction.attach,
           DBAction.execStmt (count_stmt "SELECT * FROM pg.users"),
           DBAction.execStmt (limit0_stmt "SELECT * FROM pg.users"),
           DBAction.execStmt (copy_stmt "SELECT * FROM pg.users" "out"
             "zstd" 122880)]) :=
  (claim3_amended "pg" "users" "out" "zstd" 122880 (by decide)).1

theorem failStreak_closed (cfg : CircuitBreakerConfig) (times : Nat → ℚ)
    (e : PyExc) (he : should_trip_breaker e = true) (n : Nat)
    (hn : n < cfg.failureThreshold) :
    failStreak cfg times e n = ⟨CBState.closed, n, none⟩ := by
  induction n with
  | zero => rfl
  | succ k ih =>
    have hk : k < cfg.failureThreshold := Nat.lt_of_succ_lt hn
    have hle : ¬ cfg.failureThreshold ≤ k + 1 := Nat.not_le_of_lt hn
    rw [failStreak, ih hk]
    simp [CircuitBreaker.call, can_attempt_call, record_failure, he, hle]

theorem failStreak_opens (cfg : CircuitBreakerConfig) (times : Nat → ℚ)
    (e : PyExc) (he : should_trip_breaker e = true)
    (hth : 1 ≤ cfg.failureThreshold) :
    failStreak cfg times e cfg.failureThreshold
      = ⟨CBState.opened, cfg.failureThreshold,
          some (times (cfg.failureThreshold - 1))⟩ := by
  obtain ⟨m, hm⟩ : ∃ m, cfg.failureThreshold = m + 1 :=
    ⟨cfg.failureThreshold - 1, (Nat.succ_pred_eq_of_pos hth).symm⟩
  rw [hm, failStreak,
    failStreak_closed cfg times e he m (by rw [hm]; exact Nat.lt_succ_self m)]
  simp [CircuitBreaker.call, can_attempt_call, record_failure, he, hm]

/-- C2.  The CircuitBreaker state machine, sequentially: (1) from a fresh
breaker, `failure_threshold` consecutive trippable failures leave it OPEN
with the timestamp of the last failure; (2) while OPEN and inside the
recovery window, every call fails fast with the circuit-open error, does
not invoke the wrapped function, and leaves the breaker unchanged; (3)
once `recovery_timeout_seconds` has elapsed the next call is let through
(HALF_OPEN) and invoked, and by the time it completes the breaker is again
CLOSED or OPEN, so only that one call passes; (4) success returns the
breaker to CLOSED with the failure counter reset to zero; (5) a trippable
failure returns it to OPEN, stamped with the current time (so conjunct (2)
again rejects calls within the new window). -/
theorem claim2_circuit_breaker (cfg : CircuitBreakerConfig)
    (hth : 1 ≤ cfg.failureThreshold) (times : Nat → ℚ) (e : PyExc)
    (he : should_trip_breaker e = true) :
    (failStreak cfg times e cfg.failureThreshold).state = CBState.opened
      ∧ (failStreak cfg times e cfg.failureThreshold).openedAt
          = some (times (cfg.failureThreshold - 1))
      ∧ (∀ (cb : CircuitBreaker) (t0 now : ℚ) (outcome : CallOutcome Unit),
          cb.state = CBState.opened → cb.openedAt = some t0 →
          now - t0 < cfg.recoveryTimeoutSeconds →
          CircuitBreaker.call cfg cb now outcome should_trip_breaker
            = ⟨CallResult.circuitOpenError, cb, false⟩)
      ∧ (∀ (cb : CircuitBreaker) (t0 now : ℚ),
          cb.state = CBState.opened → cb.openedAt = some t0 →
          cfg.recoveryTimeoutSeconds ≤ now - t0 →
          CircuitBreaker.call (α := Unit) cfg cb now
              (CallOutcome.success ()) should_trip_breaker
            = ⟨CallResult.ok (), ⟨CBState.closed, 0, none⟩, true⟩)
      ∧ (∀ (cb : CircuitBreaker) (t0 now : ℚ),
          cb.state = CBState.opened → cb.openedAt = some t0 →
          cfg.recoveryTimeoutSeconds ≤ now - t0 →
          CircuitBreaker.call (α := Unit) cfg cb now
              (CallOutcome.failure e) should_trip_breaker
            = ⟨CallResult.raised e,
                ⟨CBState.opened, cb.failureCount + 1, some now⟩, true⟩) := by
  refine ⟨?_, ?_, ?_, ?_, ?_⟩
  · rw [failStreak_opens cfg times e he hth]
  · rw [failStreak_opens cfg times e he hth]
  · rintro ⟨st, fc, oa⟩ t0 now outcome hst hoa hlt
    cases hst
    cases hoa
    have h1 : ¬ cfg.recoveryTimeoutSeconds ≤ now - t0 := not_le.mpr hlt
    simp [CircuitBreaker.call, can_attempt_call, h1]
  · rintro ⟨st, fc, oa⟩ t0 now hst hoa hge
    cases hst
    cases hoa
    simp [CircuitBreaker.call, can_attempt_call, record_success, hge]
  · rintro ⟨st, fc, oa⟩ t0 now hst hoa hge
    cases hst
    cases hoa
    simp [CircuitBreaker.call, can_attempt_call, record_failure, he, hge]

/-- C2 witness at the `external_dependency_breaker` defaults (threshold 3,
recovery timeout 20 s): three trippable failures at times 0, 1, 2 open the
breaker; a call at time 5 fails fast without invoking the function; a call
at time 25 passes and, succeeding, closes the breaker with the counter at
zero. -/
theorem claim2_circuit_breaker_witness :
    (failStreak external_dependency_breaker_config (fun i => (i : ℚ))
        ⟨false, none, "connection refused"⟩ 3).state = CBState.opened
      ∧ CircuitBreaker.call (α := Unit) external_dependency_breaker_config
          ⟨CBState.opened, 3, some 2⟩ 5 (CallOutcome.success ())
          should_trip_breaker
        = ⟨CallResult.circuitOpenError, ⟨CBState.opened, 3, some 2⟩, false⟩
      ∧ CircuitBreaker.call (α := Unit) external_dependency_breaker_config
          ⟨CBState.opened, 3, some 2⟩ 25 (CallOutcome.success ())
          should_trip_breaker
        = ⟨CallResult.ok (), ⟨CBState.closed, 0, none⟩, true⟩ := by
  have h := claim2_circuit_breaker external_dependency_breaker_config
    (by decide) (fun i => (i : ℚ)) ⟨false, none, "connection refused"⟩
    (by decide)
  refine ⟨h.1, ?_, ?_⟩
  · exact h.2.2.1 ⟨CBState.opened, 3, some 2⟩ 2 5 (CallOutcome.success ())
      rfl rfl (by norm_num [external_dependency_breaker_config])
  · exact h.2.2.2.1 ⟨CBState.opened, 3, some 2⟩ 2 25 rfl rfl
      (by norm_num [external_dependency_breaker_config])

theorem can_attempt_call_false {cfg : CircuitBreakerConfig}
    {cb : CircuitBreaker} {now : ℚ}
    (h : (can_attempt_call cfg cb now).1 = false) :
    (can_attempt_call cfg cb now).2 = cb := by
  by_cases hst : cb.state ≠ CBState.opened
  · simp [can_attempt_call, hst] at h
  · cases hoa : cb.openedAt with
    | none => simp [can_attempt_call, hst, hoa]
    | some t0 =>
      by_cases ht : cfg.recoveryTimeoutSeconds ≤ now - t0
      · simp [can_attempt_call, hst, hoa, ht] at h
      · simp [can_attempt_call, hst, hoa, ht]

theorem retryGo_count_le {α : Type} (f : Nat → Except PyError α) :
    ∀ (r attempt : Nat), (retryGo f attempt r).2 ≤ r + 1 := by
  intro r
  induction r with
  | zero => intro attempt; simp [retryGo]
  | succ k ih =>
    intro attempt
    rw [retryGo]
    cases f attempt with
    | ok a => simp
    | error e =>
      simp only []
      have := ih (attempt + 1)
      omega

/-- C4.  The tenacity wrapper on `extract_to_parquet` (stop after 5
attempts, exponential jittered wait from 0.5 s capped at 30 s, reraise):
a function failing on attempts 1–4 and succeeding on attempt 5 returns the
success value after exactly 5 calls; a function failing on every attempt
re-raises the 5th attempt's error unchanged after exactly 5 calls — there
is no 6th call, and no run ever makes more than 5 calls; every inter-attempt
wait is at most 30 s and the first wait is at least the initial 0.5 s. -/
theorem claim4_retry_policy {α : Type} (f : Nat → Except PyError α) (a : α)
    (eFinal : PyError) :
    ((∀ i, 1 ≤ i → i ≤ 4 → (f i).isOk = false) → f 5 = Except.ok a →
        tenacity_retry f = (Except.ok a, 5))
      ∧ ((∀ i, 1 ≤ i → i ≤ 4 → (f i).isOk = false) →
          f 5 = Except.error eFinal →
          tenacity_retry f = (Except.error eFinal, 5))
      ∧ (tenacity_retry f).2 ≤ retry_max_attempts
      ∧ (∀ (n : Nat) (j : ℚ), 0 ≤ j → j ≤ 1 →
          wait_exponential_jitter retry_wait_initial retry_wait_max n j ≤ 30
            ∧ 1 / 2 ≤ wait_exponential_jitter retry_wait_initial
                retry_wait_max 1 j) := by
  have step : ∀ i, (f i).isOk = false → ∃ e, f i = Except.error e := by
    intro i hi
    cases hfi : f i with
    | ok x => rw [hfi] at hi; simp [Except.isOk, Except.toBool] at hi
    | error e => exact ⟨e, rfl⟩
  have run : (∀ i, 1 ≤ i → i ≤ 4 → (f i).isOk = false) →
      tenacity_retry f = (f 5, 5) := by
    intro h14
    obtain ⟨e1, h1⟩ := step 1 (h14 1 (by norm_num) (by norm_num))
    obtain ⟨e2, h2⟩ := step 2 (h14 2 (by norm_num) (by norm_num))
    obtain ⟨e3, h3⟩ := step 3 (h14 3 (by norm_num) (by norm_num))
    obtain ⟨e4, h4⟩ := step 4 (h14 4 (by norm_num) (by norm_num))
    simp [tenacity_retry, retry_max_attempts, retryGo, h1, h2, h3, h4]
  refine ⟨fun h14 h5 => by rw [run h14, h5], fun h14 h5 => by rw [run h14, h5],
    ?_, fun n j hj0 hj1 => ⟨?_, ?_⟩⟩
  · exact retryGo_count_le f (retry_max_attempts - 1) 1
  · exact max_le (by norm_num) (min_le_right _ _)
  · unfold wait_exponential_jitter retry_wait_initial retry_wait_max
    have h1 : (1 : ℚ) / 2 ≤ 1 / 2 * 2 ^ (1 - 1) + j := by
      simp only [Nat.sub_self, pow_zero, mul_one]
      linarith
    calc (1 : ℚ) / 2 ≤ min (1 / 2 * 2 ^ (1 - 1) + j) 30 :=
          le_min h1 (by norm_num)
      _ ≤ max 0 (min (1 / 2 * 2 ^ (1 - 1) + j) 30) := le_max_right _ _

/-- C4 witness: concrete runs — failures on attempts 1–4 with success on
attempt 5 return the value after 5 calls; all-failing runs re-raise the
final error after exactly 5 calls; the first wait with a 0.3 jitter draw is
0.8 s, within the stated bounds. -/
theorem claim4_retry_policy_witness :
    tenacity_retry (fun n =>
        if n = 5 then Except.ok 42
        else (Except.error (PyError.valueError "boom") : Except PyError Nat))
      = (Except.ok 42, 5)
      ∧ tenacity_retry (fun _ =>
          (Except.error (PyError.valueError "boom") : Except PyError Nat))
        = (Except.error (PyError.valueError "boom"), 5)
      ∧ wait_exponential_jitter retry_wait_initial retry_wait_max 1 (3 / 10)
        ≤ 30 := by
  have h1 := claim4_retry_policy
    (fun n => if n = 5 then Except.ok 42
      else (Except.error (PyError.valueError "boom") : Except PyError Nat))
    42 (PyError.valueError "boom")
  have h2 := claim4_retry_policy
    (fun _ => (Except.error (PyError.valueError "boom") : Except PyError Nat))
    42 (PyError.valueError "boom")
  refine ⟨?_, ?_, ?_⟩
  · exact h1.1 (by intro i hi1 hi4; interval_cases i <;> rfl) (by rfl)
  · exact h2.2.1 (by intro i hi1 hi4; interval_cases i <;> rfl) (by rfl)
  · exact (h1.2.2.2 1 (3 / 10) (by norm_num) (by norm_num)).1

/-- C5, counterexample.  The claim says a failing validation inside
`extract_to_parquet` is evaluated exactly once and reported immediately.
The tenacity decorator wraps the whole coroutine body — validation
included — and, having no `retry=` predicate, retries every exception:
with the invalid name `bad name` the validation is evaluated on all 5
attempts before the `ValueError` reaches the caller. -/
theorem claim5_counterexample :
    tenacity_retry (fun _ => extract_build_query "pg" none (some "bad name"))
      = (Except.error (PyError.valueError "Invalid identifier"), 5)
      ∧ (5 : Nat) ≠ 1 := by
  constructor
  · rfl
  · decide

/-- C5, amended.  A validation failure in `extract_to_parquet` is retried
like any other error: the validation is re-evaluated on each of the 5
attempts and its `ValueError` reaches the caller only after the final
attempt, unchanged.  The circuit-breaker half of the claim holds: in the
ADBC path the query is validated before the breaker-wrapped call, so a
validation failure leaves the breaker untouched; and even for a
`ValueError` that does reach a breaker, `should_trip_breaker` classifies
it as non-tripping, so the failure counter is never incremented (the
breaker records a success instead). -/
theorem claim5_amended (dbAlias t : String) (h : safeIdentMatch t = false)
    (cfg : CircuitBreakerConfig) (cb : CircuitBreaker) (now : ℚ)
    (inner : CallOutcome Unit) (exc : PyExc)
    (hexc : exc.isValueOrValidationError = true) :
    (∃ msg,
        tenacity_retry (fun _ => extract_build_query dbAlias none (some t))
          = (Except.error (PyError.valueError msg), 5))
      ∧ (∃ e, adbc_extract_attempt cfg cb now none (some t) inner
          = (Except.error e, cb))
      ∧ should_trip_breaker exc = false
      ∧ ((CircuitBreaker.call (α := Unit) cfg cb now
            (CallOutcome.failure exc) should_trip_breaker).breaker.failureCount
          = if (can_attempt_call cfg cb now).1 then 0 else cb.failureCount) := by
  have htrip : should_trip_breaker exc = false := by
    simp [should_trip_breaker, is_non_retryable_error, hexc]
  obtain ⟨msg, hmsg⟩ := extract_build_query_err dbAlias t h
  have hadbc : ∃ msg2, adbc_build_query none (some t)
      = Except.error (PyError.valueError msg2) := by
    by_cases hne : t = ""
    · subst hne
      exact ⟨"Either query or table_name must be provided", by rfl⟩
    · exact ⟨"Invalid identifier",
        by simp [adbc_build_query, strTruthy, hne, validate_identifier, h]⟩
  obtain ⟨msg2, hmsg2⟩ := hadbc
  refine ⟨⟨msg, ?_⟩, ⟨PyError.valueError msg2, ?_⟩, htrip, ?_⟩
  · simp [tenacity_retry, retry_max_attempts, retryGo, hmsg]
  · simp [adbc_extract_attempt, hmsg2]
  · by_cases hcan : (can_attempt_call cfg cb now).1 = true
    · simp [CircuitBreaker.call, hcan, htrip, record_success]
    · have hfalse : (can_attempt_call cfg cb now).1 = false := by
        cases hx : (can_attempt_call cfg cb now).1
        · rfl
        · exact absurd hx hcan
      simp [CircuitBreaker.call, hfalse, can_attempt_call_false hfalse]

/-- C5 witness: the invalid name `bad name` is re-validated on all five
attempts with the error surfacing only at the end; its `ValueError`
classification is non-tripping; a fresh breaker mediating an ADBC attempt
with that name stays untouched. -/
theorem claim5_amended_witness :
    (∃ msg,
        tenacity_retry (fun _ => extract_build_query "pg" none (some "bad name"))
          = (Except.error (PyError.valueError msg), 5))
      ∧ (∃ e, adbc_extract_attempt external_dependency_breaker_config
          CircuitBreaker.init 0 none (some "bad name")
          (CallOutcome.success ())
          = (Except.error e, CircuitBreaker.init))
      ∧ should_trip_breaker ⟨true, none, "boom"⟩ = false := by
  have h := claim5_amended "pg" "bad name" (by decide)
    external_dependency_breaker_config CircuitBreaker.init 0
    (CallOutcome.success ()) ⟨true, none, "boom"⟩ rfl
  exact ⟨h.1, h.2.1, h.2.2.1⟩

/-- C6 (code-bug evaluation).  `MAX_SAMPLE_SIZE` is 10000 but
`_analyze_file` interpolates the caller's `sample_size` into the view's
`LIMIT` unchanged: for `sample_size = 20000` over a 20000-row source the
sample view holds 20000 rows, exceeding the hard maximum the claim (and
the unused constant) promise; the claimed effective limit would have been
`min(20000, MAX_SAMPLE_SIZE) = 10000`. -/
theorem claim6_sample_cap_missing :
    MAX_SAMPLE_SIZE = 10000
      ∧ sample_view_limit 20000 = 20000
      ∧ sample_view_rows 20000 20000 = 20000
      ∧ MAX_SAMPLE_SIZE < sample_view_rows 20000 20000
      ∧ min 20000 MAX_SAMPLE_SIZE = 10000 := by
  decide

theorem matchRatioGt_iff (p : String → Bool) (sample : List String)
    (h : sample ≠ []) :
    matchRatioGt p sample = true
      ↔ 4 * sample.length < sample.countP p * 5 := by
  have hlen : 0 < sample.length := List.length_pos.mpr h
  have hlq : (0 : ℚ) < (sample.length : ℚ) := by exact_mod_cast hlen
  have key : ((4 : ℚ) / 5 < (sample.countP p : ℚ) / (sample.length : ℚ))
      ↔ ((4 : ℚ) * (sample.length : ℚ)
          < (sample.countP p : ℚ) * 5) :=
    div_lt_div_iff₀ (by norm_num) hlq
  simp only [matchRatioGt, decide_eq_true_eq, gt_iff_lt]
  rw [key]
  constructor
  · intro h2
    exact_mod_cast h2
  · intro h2
    exact_mod_cast h2

theorem matchRatioGt_nat (p : String → Bool) (sample : List String)
    (h : sample ≠ []) :
    matchRatioGt p sample
      = decide (4 * sample.length < sample.countP p * 5) := by
  have hiff := matchRatioGt_iff p sample h
  by_cases hn : 4 * sample.length < sample.countP p * 5
  · simp [hiff.mpr hn, hn]
  · have hne : matchRatioGt p sample ≠ true := fun hh => hn (hiff.mp hh)
    simp only [Bool.not_eq_true] at hne
    simp [hne, hn]

/-- C7, counterexample.  The claim classifies a column when at least 80%
of the sub-sample matches, but the source compares with a strict `> 0.8`:
a 20-value sample with exactly 16 email matches (80%) is left
unclassified. -/
theorem claim7_counterexample :
    detect_string_format (List.replicate 16 "a@b.co" ++ List.replicate 4 "zz")
        = none
      ∧ (List.replicate 16 "a@b.co" ++ List.replicate 4 "zz").countP
          email_match = 16
      ∧ (List.replicate 16 "a@b.co" ++ List.replicate 4 "zz").length = 20 := by
  refine ⟨?_, by decide, by decide⟩
  have hne : (List.replicate 16 "a@b.co" ++ List.replicate 4 "zz")
      ≠ ([] : List String) := by decide
  simp only [detect_string_format, matchRatioGt_nat _ _ hne]
  decide

/-- C7, amended.  `_detect_string_format` classifies a nonempty sample as
email / url / phone / uuid in that priority order, with first match
winning, if and only if *strictly more* than 80% of the sample matches the
corresponding pattern (so exactly 80% does not classify); the threshold
comparison is equivalent to `4·|sample| < 5·matches`. -/
theorem claim7_amended (sample : List String) (h : sample ≠ []) :
    (detect_string_format sample = some "email"
        ↔ matchRatioGt email_match sample = true)
      ∧ (detect_string_format sample = some "url"
          ↔ (matchRatioGt email_match sample = false
              ∧ matchRatioGt url_match sample = true))
      ∧ (detect_string_format sample = some "phone"
          ↔ (matchRatioGt email_match sample = false
              ∧ matchRatioGt url_match sample = false
              ∧ matchRatioGt phone_match sample = true))
      ∧ (detect_string_format sample = some "uuid"
          ↔ (matchRatioGt email_match sample = false
              ∧ matchRatioGt url_match sample = false
              ∧ matchRatioGt phone_match sample = false
              ∧ matchRatioGt uuid_match sample = true))
      ∧ (detect_string_format sample = none
          ↔ (matchRatioGt email_match sample = false
              ∧ matchRatioGt url_match sample = false
              ∧ matchRatioGt phone_match sample = false
              ∧ matchRatioGt uuid_match sample = false))
      ∧ (matchRatioGt email_match sample = true
          ↔ 4 * sample.length < sample.countP email_match * 5) := by
  have hne : sample.isEmpty = false := by
    cases sample with
    | nil => exact absurd rfl h
    | cons a l => rfl
  refine ⟨?_, ?_, ?_, ?_, ?_, matchRatioGt_iff email_match sample h⟩ <;>
    · simp only [detect_string_format, hne, Bool.false_eq_true, if_false]
      split_ifs with h1 h2 h3 h4 <;> simp_all

/-- C7 witness of the amended behaviour: 17 of 20 email matches classify
the column as `email`; 15 of 20 classify nothing. -/
theorem claim7_amended_witness :
    detect_string_format (List.replicate 17 "a@b.co" ++ List.replicate 3 "zz")
        = some "email"
      ∧ detect_string_format
          (List.replicate 15 "a@b.co" ++ List.replicate 5 "zz") = none := by
  have h17 := claim7_amended
    (List.replicate 17 "a@b.co" ++ List.replicate 3 "zz") (by decide)
  have h15 := claim7_amended
    (List.replicate 15 "a@b.co" ++ List.replicate 5 "zz") (by decide)
  have hne17 : (List.replicate 17 "a@b.co" ++ List.replicate 3 "zz")
      ≠ ([] : List String) := by decide
  have hne15 : (List.replicate 15 "a@b.co" ++ List.replicate 5 "zz")
      ≠ ([] : List String) := by decide
  constructor
  · refine h17.1.mpr ?_
    rw [matchRatioGt_nat _ _ hne17]
    decide
  · refine h15.2.2.2.2.1.mpr ?_
    rw [matchRatioGt_nat email_match _ hne15, matchRatioGt_nat url_match _ hne15,
      matchRatioGt_nat phone_match _ hne15, matchRatioGt_nat uuid_match _ hne15]
    refine ⟨by decide, by decide, by decide, by decide⟩

/-- C8, counterexample.  The claim says a type override applies a
best-effort cast in which each uncastable value becomes null.  For the
string column `a = ["1", "x"]` with override `a → Int64`, polars' strict
cast raises on `"x"`, the exception is caught into a warning, and the
column is left entirely unchanged — still string-typed, `"x"` intact, no
null introduced. -/
theorem claim8_counterexample :
    apply_transformations
        [⟨"a", PType.tStr, [PValue.vStr "1", PValue.vStr "x"]⟩]
        ⟨[], [("a", PType.tInt)], []⟩
      = Except.ok ([⟨"a", PType.tStr, [PValue.vStr "1", PValue.vStr "x"]⟩],
          ["Could not cast column a"], 0)
      ∧ ([PValue.vStr "1", PValue.vStr "x"].contains PValue.vNull) = false := by
  exact ⟨rfl, rfl⟩

/-- C8, amended.  A type override is resolved against the post-rename
column name only; the cast is strict per column: when every value casts,
the column is replaced; when any value fails (or the key names no column,
e.g. a renamed-away original name), the whole cast is abandoned, the
column keeps its original type and values, and a warning is recorded; the
overrides step itself never raises, so no uncastable value aborts the
conversion. -/
theorem claim8_amended (df : PDataFrame) (nm : String) (dtype : PType) :
    (∀ c c2, df.find? (fun d => d.name = nm) = some c →
        strict_cast_column c dtype = Except.ok c2 →
        apply_type_overrides df [(nm, dtype)]
          = (df.map (fun d => if d.name = nm then c2 else d), []))
      ∧ (∀ c e, df.find? (fun d => d.name = nm) = some c →
          strict_cast_column c dtype = Except.error e →
          apply_type_overrides df [(nm, dtype)]
            = (df, ["Could not cast column " ++ nm]))
      ∧ (df.find? (fun d => d.name = nm) = none →
          apply_type_overrides df [(nm, dtype)]
            = (df, ["Could not cast column " ++ nm]))
      ∧ (∀ ov : List (String × PType),
          (apply_transformations df ⟨[], ov, []⟩).isOk = true) := by
  refine ⟨fun c c2 h1 h2 => ?_, fun c e h1 h2 => ?_, fun h1 => ?_,
    fun ov => rfl⟩
  · simp [apply_type_overrides, h1, h2]
  · simp [apply_type_overrides, h1, h2]
  · simp [apply_type_overrides, h1]

/-- C8 witness: the all-castable column `["1", "-27"]` is cast to Int64
with no warning; the renamed-away key `a` (after `a → b`) is reported as a
warning with the frame's values untouched. -/
theorem claim8_amended_witness :
    apply_type_overrides
        [⟨"a", PType.tStr, [PValue.vStr "1", PValue.vStr "-27"]⟩]
        [("a", PType.tInt)]
      = ([⟨"a", PType.tInt, [PValue.vInt 1, PValue.vInt (-27)]⟩], [])
      ∧ apply_type_overrides
          [⟨"b", PType.tStr, [PValue.vStr "1"]⟩] [("a", PType.tInt)]
        = ([⟨"b", PType.tStr, [PValue.vStr "1"]⟩], ["Could not cast column a"]) := by
  constructor
  · have h := (claim8_amended
      [⟨"a", PType.tStr, [PValue.vStr "1", PValue.vStr "-27"]⟩] "a"
      PType.tInt).1
      ⟨"a", PType.tStr, [PValue.vStr "1", PValue.vStr "-27"]⟩
      ⟨"a", PType.tInt, [PValue.vInt 1, PValue.vInt (-27)]⟩ rfl rfl
    rw [h]
    rfl
  · exact (claim8_amended [⟨"b", PType.tStr, [PValue.vStr "1"]⟩] "a"
      PType.tInt).2.2.1 rfl

/-- C9, counterexample.  `_generate_schema` silently skips every column
whose name starts with an underscore, so converting a source with columns
`_id, x` under empty options reports a schema with only `x` — not the
source's column list. -/
theorem claim9_counterexample :
    convert_schema [⟨"_id", PType.tInt, []⟩, ⟨"x", PType.tStr, []⟩]
        ConversionOptions.empty
      = Except.ok [("x", "String")]
      ∧ (Except.ok [("x", "String")] : Except String (List (String × String)))
        ≠ Except.ok [("_id", "Int64"), ("x", "String")] := by
  exact ⟨rfl, by decide⟩

/-- C9, amended.  Converting with empty `ConversionOptions` reports a
schema whose fields are exactly the source's columns in source order
*minus* any column whose name starts with an underscore; in particular,
when no source column name starts with an underscore, the reported field
names are exactly the source's column names in order. -/
theorem claim9_amended (df : PDataFrame) :
    (∃ fields, convert_schema df ConversionOptions.empty = Except.ok fields
        ∧ fields.map Prod.fst
          = (df.filter (fun c => !startsWithUnderscore c.name)).map
              (fun c => c.name))
      ∧ ((∀ c ∈ df, startsWithUnderscore c.name = false) →
          ∃ fields, convert_schema df ConversionOptions.empty
              = Except.ok fields
            ∧ fields.map Prod.fst = df.map (fun c => c.name)) := by
  constructor
  · exact ⟨generate_schema_fields df, rfl, by simp [generate_schema_fields]⟩
  · intro hclean
    refine ⟨generate_schema_fields df, rfl, ?_⟩
    have hfil : df.filter (fun c => !startsWithUnderscore c.name) = df := by
      apply List.filter_eq_self.mpr
      intro c hc
      simp [hclean c hc]
    simp [generate_schema_fields, hfil]

/-- C9 witness: a two-column frame with no underscore-prefixed name
round-trips its column names exactly. -/
theorem claim9_amended_witness :
    ∃ fields,
      convert_schema [⟨"x", PType.tStr, []⟩, ⟨"y", PType.tInt, []⟩]
          ConversionOptions.empty
        = Except.ok fields
      ∧ fields.map Prod.fst = ["x", "y"] := by
  obtain ⟨fields, h1, h2⟩ :=
    (claim9_amended [⟨"x", PType.tStr, []⟩, ⟨"y", PType.tInt, []⟩]).2
      (by decide)
  exact ⟨fields, h1, by rw [h2]; rfl⟩

/-- C10.  No class in the DuckDB connector hierarchy defines
`_configure_duckdb`, yet each variant's `_test_sync` calls it first; the
resulting `AttributeError` is caught by `test_connection`'s blanket
handler, so for every credential/environment outcome of the later steps
(`rest`) the result is the structured failure dict with `success = False`
— no input can produce `success = True`, and nothing is raised. -/
theorem claim10_test_connection_never_succeeds (k : DuckDBConnectorClass)
    (rest : Except String Nat) :
    method_defined k "_configure_duckdb" = false
      ∧ test_connection k rest
        = ⟨false, "connection_failed"⟩ := by
  have hm : method_defined k "_configure_duckdb" = false := by
    cases k <;> decide
  refine ⟨hm, ?_⟩
  simp [test_connection, test_sync, hm]

end Tundra
